import Mathlib

/-!
Verification development for the `ftp-client` Rust crate.

The definitions below are a shallow embedding of the protocol engine in
`src/client.rs`, `src/status_code.rs` and `src/error.rs`:

* strings are modelled as `List Char` (the wire format is ASCII, where Rust
  byte indices coincide with character indices);
* Rust panics (out-of-bounds slices and indexing, `unwrap`, `unimplemented!`)
  are modelled explicitly by the `RResult.panicked` outcome;
* fallible Rust functions return `RResult` mirroring `Result<_, Error>`;
* the stateful client methods are modelled as functions from a `World`
  (the behaviour of the server and of the transport layer) to a result, a
  final world, and a trace of I/O effects.
-/

/-- The closed set of reply kinds, from `status_code.rs` (`enum StatusCodeKind`). -/
inductive StatusCodeKind where
  | TransferStarted
  | TransferAboutToStart
  | Ok
  | FeatureNotImplemented
  | SystemStatus
  | HelpMessage
  | NameSystemType
  | ReadyForNewUser
  | ClosingControlConnection
  | RequestActionCompleted
  | UserLoggedIn
  | EnteredPassiveMode
  | EnteredExtendedPassiveMode
  | RequestFileActionCompleted
  | PasswordRequired
  | RequestActionPending
  | CommandUnrecognized
  | SecurityMechanismNotImplemented
  | RequestActionDenied
  | FileNameNotAllowed
  | Unknown
deriving DecidableEq, BEq, Repr

/-- Embeds `impl From<u16> for StatusCodeKind` (status_code.rs lines 46-72): the
status-code table.  The `match` on integer literals is rendered as the
equivalent chain of equality tests, in source order. -/
def StatusCodeKind.ofCode (code : Nat) : StatusCodeKind :=
  if code = 125 then .TransferStarted
  else if code = 150 then .TransferAboutToStart
  else if code = 200 then .Ok
  else if code = 202 then .FeatureNotImplemented
  else if code = 211 then .SystemStatus
  else if code = 214 then .HelpMessage
  else if code = 215 then .NameSystemType
  else if code = 221 then .ClosingControlConnection
  else if code = 220 then .ReadyForNewUser
  else if code = 226 then .RequestActionCompleted
  else if code = 227 then .EnteredPassiveMode
  else if code = 229 then .EnteredExtendedPassiveMode
  else if code = 230 then .UserLoggedIn
  else if code = 250 then .RequestFileActionCompleted
  else if code = 331 then .PasswordRequired
  else if code = 350 then .RequestActionPending
  else if code = 500 then .CommandUnrecognized
  else if code = 504 then .SecurityMechanismNotImplemented
  else if code = 550 then .RequestActionDenied
  else if code = 553 then .FileNameNotAllowed
  else .Unknown

/-- The Rust `Debug` name of each `StatusCodeKind` variant (used by the
`{:?}` formatting in `ServerResponse::summarize_error`). -/
def StatusCodeKind.debugName : StatusCodeKind → List Char
  | .TransferStarted => ("TransferStarted").toList
  | .TransferAboutToStart => ("TransferAboutToStart").toList
  | .Ok => ("Ok").toList
  | .FeatureNotImplemented => ("FeatureNotImplemented").toList
  | .SystemStatus => ("SystemStatus").toList
  | .HelpMessage => ("HelpMessage").toList
  | .NameSystemType => ("NameSystemType").toList
  | .ReadyForNewUser => ("ReadyForNewUser").toList
  | .ClosingControlConnection => ("ClosingControlConnection").toList
  | .RequestActionCompleted => ("RequestActionCompleted").toList
  | .UserLoggedIn => ("UserLoggedIn").toList
  | .EnteredPassiveMode => ("EnteredPassiveMode").toList
  | .EnteredExtendedPassiveMode => ("EnteredExtendedPassiveMode").toList
  | .RequestFileActionCompleted => ("RequestFileActionCompleted").toList
  | .PasswordRequired => ("PasswordRequired").toList
  | .RequestActionPending => ("RequestActionPending").toList
  | .CommandUnrecognized => ("CommandUnrecognized").toList
  | .SecurityMechanismNotImplemented => ("SecurityMechanismNotImplemented").toList
  | .RequestActionDenied => ("RequestActionDenied").toList
  | .FileNameNotAllowed => ("FileNameNotAllowed").toList
  | .Unknown => ("Unknown").toList

/-- Embeds `struct StatusCode` (status_code.rs lines 74-78). -/
structure StatusCode where
  kind : StatusCodeKind
  code : Nat
deriving DecidableEq, Repr

/-- Embeds `StatusCode::is_valid` (status_code.rs lines 95-97):
`self.code > 199 && self.code < 399`. -/
def StatusCode.is_valid (s : StatusCode) : Bool :=
  199 < s.code && s.code < 399

/-- Embeds `StatusCode::is_failure` (status_code.rs lines 99-101):
`self.code > 399 && self.code < 599`. -/
def StatusCode.is_failure (s : StatusCode) : Bool :=
  399 < s.code && s.code < 599

/-- Embeds `enum ClientMode` (client.rs lines 51-59). -/
inductive ClientMode where
  | Passive
  | ExtendedPassive
  | Active
deriving DecidableEq, Repr

/-- Embeds `enum Error` from `error.rs`.  The string payloads are the formatted
messages; the transport-level errors carry no payload relevant here. -/
inductive FtpError where
  | ioError
  | unexpectedStatusCode (msg : List Char)
  | serializationFailed (msg : List Char)
  | invalidSocketPassiveMode (msg : List Char)
  | tlsHandshakeError
  | tlsError
deriving DecidableEq, Repr

/-- Outcome of a piece of Rust code: a value, an `Err` of the crate's error
type, or a panic (out-of-bounds slice/index, `unwrap` failure,
`unimplemented!`). -/
inductive RResult (α : Type) where
  | ok (a : α)
  | err (e : FtpError)
  | panicked
deriving DecidableEq, Repr

/-- Whether an outcome is a typed (`Err`) failure. -/
def RResult.isErr {α : Type} : RResult α → Bool
  | .err _ => true
  | _ => false

/-- Whether an outcome is a panic. -/
def RResult.isPanicked {α : Type} : RResult α → Bool
  | .panicked => true
  | _ => false

/-- Embeds `std::net::Ipv4Addr`, four octets. -/
structure Ipv4Addr where
  o1 : Nat
  o2 : Nat
  o3 : Nat
  o4 : Nat
deriving DecidableEq, Repr

/-- Embeds `std::net::SocketAddrV4`: IPv4 address plus port. -/
structure SocketAddrV4 where
  ip : Ipv4Addr
  port : Nat
deriving DecidableEq, Repr

/-! ### Text primitives used by the Rust code (ASCII model) -/

/-- ASCII decimal digit test, as used by Rust's unsigned integer parsing
(`char::to_digit(10)`): exactly `'0'..='9'`. -/
def isDigitChar (c : Char) : Bool :=
  48 ≤ c.toNat && c.toNat ≤ 57

/-- Value of an ASCII digit. -/
def digitVal (c : Char) : Nat := c.toNat - 48

/-- Strip one optional leading `'+'` sign, as Rust's unsigned `from_str`
accepts. -/
def stripPlus : List Char → List Char
  | c :: rest => if c = '+' then rest else c :: rest
  | [] => []

/-- Accumulate the decimal value of a digit string; `none` if any character
is not a digit. -/
def digitsValAux : Nat → List Char → Option Nat
  | acc, [] => some acc
  | acc, c :: rest =>
      if isDigitChar c then digitsValAux (acc * 10 + digitVal c) rest else none

/-- Decimal value of a non-empty all-digit string, else `none`. -/
def digitsVal : List Char → Option Nat
  | [] => none
  | c :: rest => digitsValAux 0 (c :: rest)

/-- Rust `str::parse` for an unsigned integer type with maximum value
`bound` (`u8`: 255, `u16`: 65535): an optional `'+'` sign, then one or more
decimal digits, value within range; anything else is an error (`none`). -/
def parseNum (bound : Nat) (s : List Char) : Option Nat :=
  match digitsVal (stripPlus s) with
  | some v => if v ≤ bound then some v else none
  | none => none

/-- Rust `str::find(char)`: index of the first occurrence. -/
def firstIdx (ch : Char) : List Char → Option Nat
  | [] => none
  | a :: rest => if a = ch then some 0 else (firstIdx ch rest).map (· + 1)

/-- Rust `str::rfind(char)`: index of the last occurrence. -/
def rlast (ch : Char) : List Char → Option Nat
  | [] => none
  | a :: rest =>
      match rlast ch rest with
      | some i => some (i + 1)
      | none => if a = ch then some 0 else none

/-- Whether `pat` occurs at the start of `l`. -/
def matchesAt (pat l : List Char) : Bool :=
  l.take pat.length = pat

/-- Rust `str::find(&str)`: index of the first occurrence of the pattern. -/
def findSub (pat : List Char) : List Char → Option Nat
  | [] => if matchesAt pat [] then some 0 else none
  | a :: rest =>
      if matchesAt pat (a :: rest) then some 0
      else (findSub pat rest).map (· + 1)

/-- Rust slice `&s[a..b]`: `none` models the panic when `a > b` or
`b > s.len()`. -/
def rustSlice {α : Type} (a b : Nat) (l : List α) : Option (List α) :=
  if a ≤ b ∧ b ≤ l.length then some ((l.drop a).take (b - a)) else none

/-- Rust `str::split(',')`: split at every comma, keeping empty pieces. -/
def splitComma : List Char → List (List Char)
  | [] => [[]]
  | a :: rest =>
      if a = ',' then [] :: splitComma rest
      else
        match splitComma rest with
        | t :: ts => (a :: t) :: ts
        | [] => [[a]]

/-- Rust `str::trim`: drop whitespace from both ends. -/
def trimChars (l : List Char) : List Char :=
  ((l.dropWhile Char.isWhitespace).reverse.dropWhile Char.isWhitespace).reverse

/-! ### Reply parsing (`ServerResponse`, `StatusCode::parse`) -/

/-- Embeds `struct ServerResponse` (client.rs lines 20-24). -/
structure ServerResponse where
  message : List Char
  status_code : StatusCode
deriving DecidableEq, Repr

/-- Render `", "`-separated items inside `[` `]`, as Rust's `{:?}` debug
formatting of a `Vec`. -/
def joinCommaSp : List (List Char) → List Char
  | [] => []
  | [x] => x
  | x :: y :: xs => x ++ (", ").toList ++ joinCommaSp (y :: xs)

/-- Rust `{:?}` rendering of `Vec<StatusCodeKind>`. -/
def debugKinds (ks : List StatusCodeKind) : List Char :=
  '[' :: (joinCommaSp (ks.map StatusCodeKind.debugName) ++ [']'])

/-- Embeds `ServerResponse::summarize_error` (client.rs lines 29-34):
`format!("Got {}: {}, expected {:?}", code, message, expected)`. -/
def ServerResponse.summarize_error (r : ServerResponse) (expected : List StatusCodeKind) : List Char :=
  ("Got ").toList ++ (Nat.repr r.status_code.code).toList ++ (": ").toList ++
    r.message ++ (", expected ").toList ++ debugKinds expected

/-- Embeds `StatusCode::parse` (status_code.rs lines 87-93):
`text[0..3].parse::<u16>().unwrap()`.  `none` models the panic (short input
or unparsable prefix). -/
def StatusCode.parse (text : List Char) : Option StatusCode :=
  match rustSlice 0 3 text with
  | none => none
  | some s3 =>
      match parseNum 65535 s3 with
      | none => none
      | some code => some { kind := StatusCodeKind.ofCode code, code := code }

/-- Embeds `ServerResponse::parse` (client.rs lines 63-71): status code from the
first three characters, message `text[3..].trim()`.  `none` models the panic
on malformed input. -/
def ServerResponse.parse (text : List Char) : Option ServerResponse :=
  match StatusCode.parse text with
  | none => none
  | some sc => some { message := trimChars (text.drop 3), status_code := sc }

/-! ### Address decoding -/

/-- The error constructed by the `cant_parse_error` closures in both decoders:
`format!("Cannot parse socket sent from server for passive mode: {}.", m)`. -/
def cant_parse_error (m : List Char) : FtpError :=
  .invalidSocketPassiveMode
    (("Cannot parse socket sent from server for passive mode: ").toList ++ m ++ (".").toList)

/-- Embeds `Client::decode_passive_mode_ip` (client.rs lines 612-646).  Locates the
first `(` and first `)`, splits the enclosed text at commas, keeps the tokens
that parse as `u8` (`flat_map`), errors when fewer than 4 remain, and builds
the address from `nums[0..=3]` and port `256*nums[4] + nums[5]`; the
out-of-range accesses `nums[4]`/`nums[5]` and the slice `[start+1..end]`
panic (`RResult.panicked`) when out of bounds. -/
def decode_passive_mode_ip (message : List Char) : RResult SocketAddrV4 :=
  match firstIdx '(' message, firstIdx ')' message with
  | some start, some stop =>
      match rustSlice (start + 1) stop message with
      | none => .panicked
      | some inner =>
          let nums := (splitComma inner).filterMap (parseNum 255)
          if nums.length < 4 then .err (cant_parse_error message)
          else
            match nums.get? 4, nums.get? 5 with
            | some p1, some p2 =>
                .ok { ip := { o1 := nums.getD 0 0, o2 := nums.getD 1 0,
                              o3 := nums.getD 2 0, o4 := nums.getD 3 0 },
                      port := 256 * p1 + p2 }
            | _, _ => .panicked
  | _, _ => .err (cant_parse_error message)

/-- Embeds `Client::decode_extended_passive_mode_socket` (client.rs lines 648-676).
Locates the first `"|||"` and the last `'|'`, parses the text strictly
between them as a `u16` port, and pairs it with the control connection's
peer IP address (`peer`, which the function never inspects: it is
polymorphic in the address type).  The slice `[start+3..end]` panics when
`start+3 > end`. -/
def decode_extended_passive_mode_socket {α : Type} (peer : Option α) (response : List Char) :
    RResult (α × Nat) :=
  match findSub (("|||").toList) response, rlast '|' response with
  | some start, some stop =>
      match rustSlice (start + 3) stop response with
      | none => .panicked
      | some body =>
          match parseNum 65535 body with
          | none => .err (cant_parse_error response)
          | some port =>
              match peer with
              | none => .err (cant_parse_error response)
              | some ip => .ok (ip, port)
  | _, _ => .err (cant_parse_error response)

/-! ### UTF-8 validation (`String::from_utf8`) and `str::lines` -/

/-- Continuation-byte test: `0x80..=0xBF`. -/
def isCont (b : Nat) : Bool := 128 ≤ b && b < 192

/-- Embeds `String::from_utf8` on a byte buffer: decode to the list of scalar
values, rejecting overlong forms, surrogates and values above `0x10FFFF`
(the exact Rust validation); `none` is the `FromUtf8Error` case. -/
def utf8Decode : List Nat → Option (List Nat)
  | [] => some []
  | b :: rest =>
    if b < 128 then (utf8Decode rest).map (b :: ·)
    else if b < 194 then none
    else if b < 224 then
      match rest with
      | b2 :: rest2 =>
          if isCont b2 then (utf8Decode rest2).map (((b - 192) * 64 + (b2 - 128)) :: ·)
          else none
      | [] => none
    else if b < 240 then
      match rest with
      | b2 :: b3 :: rest3 =>
          if (if b = 224 then 160 ≤ b2 && b2 < 192
              else if b = 237 then 128 ≤ b2 && b2 < 160
              else isCont b2) && isCont b3 then
            (utf8Decode rest3).map
              (((b - 224) * 4096 + (b2 - 128) * 64 + (b3 - 128)) :: ·)
          else none
      | _ => none
    else if b < 245 then
      match rest with
      | b2 :: b3 :: b4 :: rest4 =>
          if (if b = 240 then 144 ≤ b2 && b2 < 192
              else if b = 244 then 128 ≤ b2 && b2 < 144
              else isCont b2) && isCont b3 && isCont b4 then
            (utf8Decode rest4).map
              (((b - 240) * 262144 + (b2 - 128) * 4096 + (b3 - 128) * 64 + (b4 - 128)) :: ·)
          else none
      | _ => none
    else none

/-- Split a scalar-value string at every `'\n'` (10), keeping empty pieces. -/
def splitNl : List Nat → List (List Nat)
  | [] => [[]]
  | a :: rest =>
      if a = 10 then [] :: splitNl rest
      else
        match splitNl rest with
        | t :: ts => (a :: t) :: ts
        | [] => [[a]]

/-- Strip one trailing `'\r'` (13), as `str::lines` does per line. -/
def stripCr (l : List Nat) : List Nat :=
  match l.reverse with
  | 13 :: t => t.reverse
  | _ => l

/-- Rust `str::lines`: split at `'\n'`, drop a final empty piece, strip one
trailing `'\r'` from each line. -/
def linesOf (t : List Nat) : List (List Nat) :=
  let parts := splitNl t
  let parts :=
    match parts.reverse with
    | [] :: rest => rest.reverse
    | _ => parts
  parts.map stripCr

/-! ### The I/O model

A client session interacts with two sockets.  A `World` fixes the outcome of
every I/O primitive the session may perform (the server's reply lines, the
bytes a data connection yields, and the success of each connect, write and
read), so quantifying over worlds quantifies over all executions.  Running a
client method produces a trace of `Ev` effects, an outcome, and the rest of
the world. -/

/-- One observable I/O effect of the client. -/
inductive Ev where
  /-- Opening the control connection (`TcpStream::connect` in the connect
  functions). -/
  | ctrlConnect
  /-- Writing one command line on the control connection; carries the exact
  serialized line. -/
  | ctrlWrite (line : List Char)
  /-- Reading one reply line on the control connection.  The argument
  records the accepted-kind set of the `parse_reply_expecting` call that
  performs the read; it is trace metadata only and does not influence
  behaviour. -/
  | ctrlRead (expected : List StatusCodeKind)
  /-- Opening a data connection (`TcpStream::connect` on the decoded
  address). -/
  | dataConnect
  /-- Reading the data connection to exhaustion (`read_to_end`). -/
  | dataRead
  /-- Writing the whole payload to the data connection (`write_all`). -/
  | dataWrite
  /-- Releasing (dropping) the data connection. -/
  | dataClose
deriving DecidableEq, Repr

/-- The environment: outcomes of every I/O primitive, in the order the
session will consume them. -/
structure World where
  /-- Embeds `TlsConnector::new()` succeeds. -/
  tlsConnectorOk : Bool
  /-- The control-connection `TcpStream::connect` succeeds. -/
  ctrlConnectOk : Bool
  /-- The TLS handshake succeeds. -/
  tlsHandshakeOk : Bool
  /-- Outcome of each successive control-channel write. -/
  wOut : List Bool
  /-- Each successive control-channel `read_line`: `none` is an I/O error,
  `some line` the line read. -/
  rIn : List (Option (List Char))
  /-- Embeds `peer_addr()` of the control stream, when available. -/
  peer : Option Ipv4Addr
  /-- Outcome of each successive data-connection `TcpStream::connect`. -/
  dConnOut : List Bool
  /-- Each successive data-connection `read_to_end`: `none` is an I/O
  error, `some bytes` the bytes drained. -/
  dReadIn : List (Option (List Nat))
  /-- Outcome of each successive data-connection `write_all`. -/
  dWriteOut : List Bool
deriving Repr

/-- Result of running a client method on a world. -/
structure RunOut (α : Type) where
  trace : List Ev
  result : RResult α
  world : World

/-- A client computation: stateful, effect-logging, fallible. -/
def M (α : Type) : Type := World → RunOut α

/-- Return a pure value. -/
def pureM {α : Type} (a : α) : M α := fun w => ⟨[], .ok a, w⟩

/-- Sequencing with Rust `?` semantics: an `Err` or a panic aborts. -/
def bindM {α β : Type} (m : M α) (f : α → M β) : M β := fun w =>
  let r := m w
  match r.result with
  | .ok a =>
      let r2 := f a r.world
      ⟨r.trace ++ r2.trace, r2.result, r2.world⟩
  | .err e => ⟨r.trace, .err e, r.world⟩
  | .panicked => ⟨r.trace, .panicked, r.world⟩

/-- Fail with a typed error. -/
def errM {α : Type} (e : FtpError) : M α := fun w => ⟨[], .err e, w⟩

/-- Panic (`unimplemented!` and friends). -/
def panicM {α : Type} : M α := fun w => ⟨[], .panicked, w⟩

/-- Lift a pure outcome (e.g. of an address decoder) into the monad. -/
def ofRR {α : Type} (r : RResult α) : M α := fun w => ⟨[], r, w⟩

/-- Embeds `"\r\n"`. -/
def crlf : List Char := ('\r') :: ('\n') :: []

/-- Embeds `struct Client` (client.rs lines 123-128).  The byte stream and the
reusable line buffer live in the `World`/`M` model; the session state proper
is the welcome string and the data-connection mode. -/
structure Client where
  welcome_string : Option (List Char)
  mode : ClientMode
deriving Repr, DecidableEq

/-- Embeds `Client::write_command` (client.rs lines 567-572): serialize
`format!("{}\r\n", cmd)` and `write_all` it on the control stream. -/
def Client.write_command (cmd : List Char) : M Unit := fun w =>
  match w.wOut with
  | [] => ⟨[.ctrlWrite (cmd ++ crlf)], .err .ioError, w⟩
  | b :: rest =>
      ⟨[.ctrlWrite (cmd ++ crlf)], if b then .ok () else .err .ioError,
        { w with wOut := rest }⟩

/-- Embeds `Client::write_unary_command` (client.rs lines 549-554): serialize
`format!("{} {}\r\n", cmd, arg)`. -/
def Client.write_unary_command (cmd arg : List Char) : M Unit := fun w =>
  match w.wOut with
  | [] => ⟨[.ctrlWrite (cmd ++ ' ' :: (arg ++ crlf))], .err .ioError, w⟩
  | b :: rest =>
      ⟨[.ctrlWrite (cmd ++ ' ' :: (arg ++ crlf))], if b then .ok () else .err .ioError,
        { w with wOut := rest }⟩

/-- Embeds `Client::parse_reply` (client.rs lines 599-603): clear the buffer, read
one line, parse it (`ServerResponse::parse` can panic on a malformed line).
The `expected` argument is recorded in the trace event to identify the
`parse_reply_expecting` call site performing the read; behaviour ignores
it. -/
def Client.parse_reply (expected : List StatusCodeKind) : M ServerResponse := fun w =>
  ⟨[.ctrlRead expected],
    (match w.rIn with
     | [] => .err .ioError
     | none :: _ => .err .ioError
     | some line :: _ =>
         match ServerResponse.parse line with
         | none => .panicked
         | some resp => .ok resp),
    { w with rIn := w.rIn.tail }⟩

/-- The acceptance decision inside `Client::parse_reply_expecting`
(client.rs lines 581-595), applied to an already-received reply: accept when
the kind is expected or the status code is numerically positive, otherwise
an `UnexpectedStatusCode` error built by `summarize_error`. -/
def Client.reply_check (valid_statuses : List StatusCodeKind) (response : ServerResponse) :
    RResult ServerResponse :=
  let is_expected_status := valid_statuses.contains response.status_code.kind
  let is_positive_status := response.status_code.is_valid
  if is_expected_status || is_positive_status then .ok response
  else .err (.unexpectedStatusCode (response.summarize_error valid_statuses))

/-- Embeds `Client::parse_reply_expecting` (client.rs lines 575-596). -/
def Client.parse_reply_expecting (valid_statuses : List StatusCodeKind) : M ServerResponse :=
  bindM (Client.parse_reply valid_statuses) (fun r => ofRR (Client.reply_check valid_statuses r))

/-- Embeds `Client::write_command_expecting` (client.rs lines 557-564). -/
def Client.write_command_expecting (cmd : List Char) (valid_statuses : List StatusCodeKind) :
    M ServerResponse :=
  bindM (Client.write_command cmd) (fun _ => Client.parse_reply_expecting valid_statuses)

/-- Embeds `Client::write_unary_command_expecting` (client.rs lines 538-546). -/
def Client.write_unary_command_expecting (cmd arg : List Char)
    (valid_statuses : List StatusCodeKind) : M ServerResponse :=
  bindM (Client.write_unary_command cmd arg) (fun _ => Client.parse_reply_expecting valid_statuses)

/-- Embeds `TcpStream::connect` on the decoded data-connection address. -/
def dataConnectM : M Unit := fun w =>
  match w.dConnOut with
  | [] => ⟨[.dataConnect], .err .ioError, w⟩
  | b :: rest =>
      ⟨[.dataConnect], if b then .ok () else .err .ioError, { w with dConnOut := rest }⟩

/-- Embeds `conn.read_to_end(&mut buffer)` on the data connection. -/
def dataReadToEnd : M (List Nat) := fun w =>
  match w.dReadIn with
  | [] => ⟨[.dataRead], .err .ioError, w⟩
  | o :: rest =>
      ⟨[.dataRead],
        (match o with
         | none => .err .ioError
         | some bs => .ok bs), { w with dReadIn := rest }⟩

/-- Embeds `conn.get_mut().write_all(data)` on the data connection. -/
def dataWriteAll (_payload : List Nat) : M Unit := fun w =>
  match w.dWriteOut with
  | [] => ⟨[.dataWrite], .err .ioError, w⟩
  | b :: rest =>
      ⟨[.dataWrite], if b then .ok () else .err .ioError, { w with dWriteOut := rest }⟩

/-- Dropping the data connection (the end of the inner scope in the upload
methods). -/
def dataCloseM : M Unit := fun w => ⟨[.dataClose], .ok (), w⟩

/-- Embeds `Client::extended_passive_mode_connection` (client.rs lines 518-526):
`EPSV`, decode using the control connection's peer address, connect. -/
def Client.extended_passive_mode_connection : M Unit :=
  bindM (Client.write_command_expecting (("EPSV").toList) [.EnteredExtendedPassiveMode])
    (fun response =>
      bindM (fun w => ⟨[], decode_extended_passive_mode_socket w.peer response.message, w⟩)
        (fun _socket => dataConnectM))

/-- Embeds `Client::passive_mode_connection` (client.rs lines 529-535): `PASV`,
decode, connect. -/
def Client.passive_mode_connection : M Unit :=
  bindM (Client.write_command_expecting (("PASV").toList) [.EnteredPassiveMode])
    (fun response =>
      bindM (ofRR (decode_passive_mode_ip response.message)) (fun _socket => dataConnectM))

/-- Embeds `Client::get_data_connection` (client.rs lines 509-515): dispatch on the
session's mode; `Active` is `unimplemented!()` — a panic. -/
def Client.get_data_connection (c : Client) : M Unit :=
  match c.mode with
  | .Active => panicM
  | .Passive => Client.passive_mode_connection
  | .ExtendedPassive => Client.extended_passive_mode_connection

/-- Embeds `Client::list` (client.rs lines 273-293). -/
def Client.list (c : Client) (path : List Char) : M (List Nat) :=
  bindM c.get_data_connection (fun _ =>
  bindM (Client.write_unary_command_expecting (("LIST").toList) path
      [.TransferStarted, .TransferAboutToStart]) (fun _ =>
  bindM dataReadToEnd (fun buffer =>
  bindM (Client.parse_reply_expecting [.RequestActionCompleted]) (fun _ =>
  match utf8Decode buffer with
  | some text => pureM text
  | none => errM (.serializationFailed
      (("Invalid ASCII returned on server directory listing.").toList))))))

/-- Embeds `Client::list_names` (client.rs lines 296-316). -/
def Client.list_names (c : Client) (path : List Char) : M (List (List Nat)) :=
  bindM c.get_data_connection (fun _ =>
  bindM (Client.write_unary_command_expecting (("NLST").toList) path
      [.TransferStarted, .TransferAboutToStart]) (fun _ =>
  bindM dataReadToEnd (fun buffer =>
  bindM (Client.parse_reply_expecting [.RequestActionCompleted]) (fun _ =>
  match utf8Decode buffer with
  | some text => pureM (linesOf text)
  | none => errM (.serializationFailed
      (("Invalid ASCII returned on server directory name listing.").toList))))))

/-- Embeds `Client::retrieve_file` (client.rs lines 491-506). -/
def Client.retrieve_file (c : Client) (path : List Char) : M (List Nat) :=
  bindM c.get_data_connection (fun _ =>
  bindM (Client.write_unary_command_expecting (("RETR").toList) path
      [.TransferAboutToStart, .TransferStarted]) (fun _ =>
  bindM dataReadToEnd (fun buffer =>
  bindM (Client.parse_reply_expecting [.RequestActionCompleted]) (fun _ =>
  pureM buffer))))

/-- Embeds `Client::store` (client.rs lines 319-341): the data connection is scoped
so it drops (`dataCloseM`) before the completion reply is read. -/
def Client.store (c : Client) (path : List Char) (data : List Nat) : M Unit :=
  bindM c.get_data_connection (fun _ =>
  bindM (Client.write_unary_command_expecting (("STOR").toList) path
      [.TransferStarted, .TransferAboutToStart]) (fun _ =>
  bindM (dataWriteAll data) (fun _ =>
  bindM dataCloseM (fun _ =>
  bindM (Client.parse_reply_expecting [.RequestActionCompleted]) (fun _ =>
  pureM ())))))

/-- Embeds `Client::store_unique` (client.rs lines 344-361): `STOU` takes no
argument; the completion reply's message is returned as the server-chosen
name. -/
def Client.store_unique (c : Client) (data : List Nat) : M (List Char) :=
  bindM c.get_data_connection (fun _ =>
  bindM (Client.write_command_expecting (("STOU").toList)
      [.TransferStarted, .TransferAboutToStart]) (fun _ =>
  bindM (dataWriteAll data) (fun _ =>
  bindM dataCloseM (fun _ =>
  bindM (Client.parse_reply_expecting [.RequestActionCompleted]) (fun reply =>
  pureM reply.message)))))

/-- Embeds `Client::append` (client.rs lines 364-389): completion accepts
`RequestActionCompleted` or `RequestFileActionCompleted`. -/
def Client.append (c : Client) (path : List Char) (data : List Nat) : M Unit :=
  bindM c.get_data_connection (fun _ =>
  bindM (Client.write_unary_command_expecting (("APPE").toList) path
      [.TransferStarted, .TransferAboutToStart]) (fun _ =>
  bindM (dataWriteAll data) (fun _ =>
  bindM dataCloseM (fun _ =>
  bindM (Client.parse_reply_expecting [.RequestActionCompleted,
      .RequestFileActionCompleted]) (fun _ =>
  pureM ())))))

/-- Embeds `Client::login` (client.rs lines 210-215): `USER` then `PASS`. -/
def Client.login (user password : List Char) : M Unit :=
  bindM (Client.write_unary_command_expecting (("USER").toList) user [.PasswordRequired]) (fun _ =>
  bindM (Client.write_unary_command_expecting (("PASS").toList) password [.UserLoggedIn]) (fun _ =>
  pureM ()))

/-- Opening the control connection (`TcpStream::connect(&host)`). -/
def ctrlConnectM : M Unit := fun w =>
  ⟨[.ctrlConnect], if w.ctrlConnectOk then .ok () else .err .ioError, w⟩

/-- Embeds `TlsConnector::new()`. -/
def tlsConnectorNew : M Unit := fun w =>
  ⟨[], if w.tlsConnectorOk then .ok () else .err .tlsError, w⟩

/-- Embeds `connector.connect(&host, raw_stream)` — the TLS handshake. -/
def tlsHandshakeM : M Unit := fun w =>
  ⟨[], if w.tlsHandshakeOk then .ok () else .err .tlsHandshakeError, w⟩

/-- Embeds `Client::connect_with_port` (client.rs lines 178-200): open the control
connection, build the session with `mode: ClientMode::ExtendedPassive`, read
the greeting expecting `ReadyForNewUser`, record the welcome message, log
in. -/
def Client.connect_with_port (_hostname : List Char) (_port : Nat) (user password : List Char) :
    M Client :=
  bindM ctrlConnectM (fun _ =>
  bindM (Client.parse_reply_expecting [.ReadyForNewUser]) (fun response =>
  bindM (Client.login user password) (fun _ =>
  pureM { welcome_string := some response.message, mode := ClientMode.ExtendedPassive })))

/-- Embeds `Client::connect` (client.rs lines 132-138): plaintext, port 21. -/
def Client.connect (hostname user password : List Char) : M Client :=
  Client.connect_with_port hostname 21 user password

/-- Embeds `Client::connect_tls_with_port` (client.rs lines 150-175). -/
def Client.connect_tls_with_port (_hostname : List Char) (_port : Nat) (user password : List Char) :
    M Client :=
  bindM tlsConnectorNew (fun _ =>
  bindM ctrlConnectM (fun _ =>
  bindM tlsHandshakeM (fun _ =>
  bindM (Client.parse_reply_expecting [.ReadyForNewUser]) (fun response =>
  bindM (Client.login user password) (fun _ =>
  pureM { welcome_string := some response.message, mode := ClientMode.ExtendedPassive })))))

/-- Embeds `Client::connect_tls` (client.rs lines 141-147): TLS, port 21. -/
def Client.connect_tls (hostname user password : List Char) : M Client :=
  Client.connect_tls_with_port hostname 21 user password

/-! ### Trace predicates for the ordering invariant -/

/-- A completion-reply read: a control-channel read performed by a
`parse_reply_expecting` call whose accepted set contains
`RequestActionCompleted` (the completion kind of every transfer command). -/
def isComplRead : Ev → Bool
  | .ctrlRead es => es.contains .RequestActionCompleted
  | _ => false

/-- A data-connection read, write, or release. -/
def isDataEv : Ev → Bool
  | .dataRead => true
  | .dataWrite => true
  | .dataClose => true
  | _ => false

/-- Every data-connection read/write/release in the trace occurs strictly
before every completion-reply read: the completion reply is never read
before the data connection is done. -/
def TraceOrdered (t : List Ev) : Prop :=
  ∀ (i j : Nat) (e1 e2 : Ev), t[i]? = some e1 → t[j]? = some e2 →
    isComplRead e1 = true → isDataEv e2 = true → j < i

/-- The computation never logs a completion-reply read, on any world. -/
def NoComplTrace {α : Type} (m : M α) : Prop :=
  ∀ w, ∀ e ∈ (m w).trace, isComplRead e = false

/-- The computation never logs a data-connection event, on any world. -/
def NoDataTrace {α : Type} (m : M α) : Prop :=
  ∀ w, ∀ e ∈ (m w).trace, isDataEv e = false

/-- The computation's trace splits into a completion-free prefix followed by
a data-free suffix, on any world. -/
def SeqOk {α : Type} (m : M α) : Prop :=
  ∀ w, ∃ t1 t2, (m w).trace = t1 ++ t2 ∧
    (∀ e ∈ t1, isComplRead e = false) ∧ (∀ e ∈ t2, isDataEv e = false)

/-! ### Concrete worlds and clients used by the closed witness statements -/

/-- A session in extended-passive mode (the mode `connect` initializes). -/
def clientEx : Client := { welcome_string := none, mode := ClientMode.ExtendedPassive }

/-- A world in which a full download succeeds: EPSV reply, transfer-start
reply, data bytes, completion reply. -/
def wTransfer : World :=
  { tlsConnectorOk := true, ctrlConnectOk := true, tlsHandshakeOk := true,
    wOut := [true, true, true, true, true, true],
    rIn := [some (("229 Entering Extended Passive Mode (|||5|)").toList),
            some (("150 about to start").toList),
            some (("226 done").toList)],
    peer := some (Ipv4Addr.mk 127 0 0 1),
    dConnOut := [true],
    dReadIn := [some [97, 46, 116, 120, 116, 13, 10]],
    dWriteOut := [true] }

/-- A world in which the connect handshake succeeds: greeting, password
request, login confirmation. -/
def wConnect : World :=
  { tlsConnectorOk := true, ctrlConnectOk := true, tlsHandshakeOk := true,
    wOut := [true, true],
    rIn := [some (("220 ready").toList), some (("331 want pass").toList),
            some (("230 logged in").toList)],
    peer := none, dConnOut := [], dReadIn := [], dWriteOut := [] }

/-- A reply whose kind is not in any accepted set and whose code is not
positive. -/
def respUnknown : ServerResponse :=
  { message := ("hi").toList, status_code := { kind := .Unknown, code := 999 } }

/-- A reply accepted by kind. -/
def respOk200 : ServerResponse :=
  { message := [], status_code := { kind := .Ok, code := 200 } }

/-! ### Compositional lemmas about traces -/

theorem noComplTrace_bind {α β : Type} {m : M α} {f : α → M β}
    (hm : NoComplTrace m) (hf : ∀ a, NoComplTrace (f a)) : NoComplTrace (bindM m f) := by
  intro w e he
  unfold bindM at he
  cases hr : (m w).result with
  | ok a =>
      simp only [hr] at he
      rcases List.mem_append.mp he with h | h
      · exact hm w e h
      · exact hf a (m w).world e h
  | err e2 =>
      simp only [hr] at he
      exact hm w e he
  | panicked =>
      simp only [hr] at he
      exact hm w e he

theorem noDataTrace_bind {α β : Type} {m : M α} {f : α → M β}
    (hm : NoDataTrace m) (hf : ∀ a, NoDataTrace (f a)) : NoDataTrace (bindM m f) := by
  intro w e he
  unfold bindM at he
  cases hr : (m w).result with
  | ok a =>
      simp only [hr] at he
      rcases List.mem_append.mp he with h | h
      · exact hm w e h
      · exact hf a (m w).world e h
  | err e2 =>
      simp only [hr] at he
      exact hm w e he
  | panicked =>
      simp only [hr] at he
      exact hm w e he

theorem seqOk_of_noData {α : Type} {m : M α} (h : NoDataTrace m) : SeqOk m := by
  intro w
  exact ⟨[], (m w).trace, by simp, by simp, h w⟩

theorem seqOk_bind {α β : Type} {m : M α} {f : α → M β}
    (hm : NoComplTrace m) (hf : ∀ a, SeqOk (f a)) : SeqOk (bindM m f) := by
  intro w
  unfold bindM
  cases hr : (m w).result with
  | ok a =>
      obtain ⟨t1, t2, ht, h1, h2⟩ := hf a (m w).world
      refine ⟨(m w).trace ++ t1, t2, ?_, ?_, h2⟩
      · simp only [hr, ht, List.append_assoc]
      · intro e he
        rcases List.mem_append.mp he with h | h
        · exact hm w e h
        · exact h1 e h
  | err e2 =>
      exact ⟨(m w).trace, [], by simp [hr], hm w, by simp⟩
  | panicked =>
      exact ⟨(m w).trace, [], by simp [hr], hm w, by simp⟩

theorem traceOrdered_of_seqOk {α : Type} {m : M α} (h : SeqOk m) (w : World) :
    TraceOrdered ((m w).trace) := by
  obtain ⟨t1, t2, ht, h1, h2⟩ := h w
  unfold TraceOrdered
  intro i j e1 e2 hi hj hc hd
  rw [ht] at hi hj
  rcases Nat.lt_or_ge i t1.length with hlt | hge
  · rw [List.getElem?_append_left hlt] at hi
    have := h1 e1 (List.getElem?_mem hi)
    rw [this] at hc
    exact absurd hc (by simp)
  · rcases Nat.lt_or_ge j t1.length with hj1 | hj2
    · omega
    · rw [List.getElem?_append_right hj2] at hj
      have := h2 e2 (List.getElem?_mem hj)
      rw [this] at hd
      exact absurd hd (by simp)

/-! ### Trace facts about the primitives -/

theorem noCompl_write_command (cmd : List Char) : NoComplTrace (Client.write_command cmd) := by
  intro w e he
  unfold Client.write_command at he
  cases hw : w.wOut <;> simp [hw] at he <;> simp [he, isComplRead]

theorem noCompl_write_unary_command (cmd arg : List Char) :
    NoComplTrace (Client.write_unary_command cmd arg) := by
  intro w e he
  unfold Client.write_unary_command at he
  cases hw : w.wOut <;> simp [hw] at he <;> simp [he, isComplRead]

theorem trace_parse_reply (es : List StatusCodeKind) (w : World) :
    (Client.parse_reply es w).trace = [Ev.ctrlRead es] := rfl

theorem noCompl_parse_reply {es : List StatusCodeKind}
    (h : es.contains .RequestActionCompleted = false) : NoComplTrace (Client.parse_reply es) := by
  intro w e he
  rw [trace_parse_reply] at he
  simp at he
  simp [he, isComplRead, h]

theorem noData_parse_reply (es : List StatusCodeKind) : NoDataTrace (Client.parse_reply es) := by
  intro w e he
  rw [trace_parse_reply] at he
  simp at he
  simp [he, isDataEv]

theorem noCompl_ofRR {α : Type} (r : RResult α) : NoComplTrace (ofRR r) := by
  intro w e he
  simp [ofRR] at he

theorem noData_ofRR {α : Type} (r : RResult α) : NoDataTrace (ofRR r) := by
  intro w e he
  simp [ofRR] at he

theorem noCompl_pureM {α : Type} (a : α) : NoComplTrace (pureM a) := by
  intro w e he
  simp [pureM] at he

theorem noData_pureM {α : Type} (a : α) : NoDataTrace (pureM a) := by
  intro w e he
  simp [pureM] at he

theorem noCompl_errM {α : Type} (er : FtpError) : NoComplTrace (@errM α er) := by
  intro w e he
  simp [errM] at he

theorem noData_errM {α : Type} (er : FtpError) : NoDataTrace (@errM α er) := by
  intro w e he
  simp [errM] at he

theorem noCompl_panicM {α : Type} : NoComplTrace (@panicM α) := by
  intro w e he
  simp [panicM] at he

theorem noCompl_parse_reply_expecting {es : List StatusCodeKind}
    (h : es.contains .RequestActionCompleted = false) :
    NoComplTrace (Client.parse_reply_expecting es) :=
  noComplTrace_bind (noCompl_parse_reply h) (fun _ => noCompl_ofRR _)

theorem noData_parse_reply_expecting (es : List StatusCodeKind) :
    NoDataTrace (Client.parse_reply_expecting es) :=
  noDataTrace_bind (noData_parse_reply es) (fun _ => noData_ofRR _)

theorem noCompl_write_command_expecting (cmd : List Char) {es : List StatusCodeKind}
    (h : es.contains .RequestActionCompleted = false) :
    NoComplTrace (Client.write_command_expecting cmd es) :=
  noComplTrace_bind (noCompl_write_command cmd) (fun _ => noCompl_parse_reply_expecting h)

theorem noCompl_write_unary_command_expecting (cmd arg : List Char) {es : List StatusCodeKind}
    (h : es.contains .RequestActionCompleted = false) :
    NoComplTrace (Client.write_unary_command_expecting cmd arg es) :=
  noComplTrace_bind (noCompl_write_unary_command cmd arg)
    (fun _ => noCompl_parse_reply_expecting h)

theorem noCompl_dataConnectM : NoComplTrace dataConnectM := by
  intro w e he
  unfold dataConnectM at he
  cases hw : w.dConnOut <;> simp [hw] at he <;> simp [he, isComplRead]

theorem noCompl_dataReadToEnd : NoComplTrace dataReadToEnd := by
  intro w e he
  unfold dataReadToEnd at he
  cases hw : w.dReadIn <;> simp [hw] at he <;> simp [he, isComplRead]

theorem noCompl_dataWriteAll (payload : List Nat) : NoComplTrace (dataWriteAll payload) := by
  intro w e he
  unfold dataWriteAll at he
  cases hw : w.dWriteOut <;> simp [hw] at he <;> simp [he, isComplRead]

theorem noCompl_dataCloseM : NoComplTrace dataCloseM := by
  intro w e he
  simp [dataCloseM] at he
  simp [he, isComplRead]

theorem noCompl_extended_passive : NoComplTrace Client.extended_passive_mode_connection := by
  unfold Client.extended_passive_mode_connection
  refine noComplTrace_bind (noCompl_write_command_expecting _ (by decide)) (fun response => ?_)
  refine noComplTrace_bind ?_ (fun _ => noCompl_dataConnectM)
  intro w e he
  simp at he

theorem noCompl_passive : NoComplTrace Client.passive_mode_connection := by
  unfold Client.passive_mode_connection
  refine noComplTrace_bind (noCompl_write_command_expecting _ (by decide)) (fun response => ?_)
  exact noComplTrace_bind (noCompl_ofRR _) (fun _ => noCompl_dataConnectM)

theorem noCompl_get_data_connection (c : Client) : NoComplTrace c.get_data_connection := by
  unfold Client.get_data_connection
  cases c.mode with
  | Active => exact noCompl_panicM
  | Passive => exact noCompl_passive
  | ExtendedPassive => exact noCompl_extended_passive

theorem seqOk_list (c : Client) (path : List Char) : SeqOk (c.list path) := by
  unfold Client.list
  refine seqOk_bind (noCompl_get_data_connection c) (fun _ => ?_)
  refine seqOk_bind (noCompl_write_unary_command_expecting _ _ (by decide)) (fun _ => ?_)
  refine seqOk_bind noCompl_dataReadToEnd (fun buffer => ?_)
  refine seqOk_of_noData (noDataTrace_bind (noData_parse_reply_expecting _) (fun _ => ?_))
  cases utf8Decode buffer with
  | none => exact noData_errM _
  | some text => exact noData_pureM _

theorem seqOk_list_names (c : Client) (path : List Char) : SeqOk (c.list_names path) := by
  unfold Client.list_names
  refine seqOk_bind (noCompl_get_data_connection c) (fun _ => ?_)
  refine seqOk_bind (noCompl_write_unary_command_expecting _ _ (by decide)) (fun _ => ?_)
  refine seqOk_bind noCompl_dataReadToEnd (fun buffer => ?_)
  refine seqOk_of_noData (noDataTrace_bind (noData_parse_reply_expecting _) (fun _ => ?_))
  cases utf8Decode buffer with
  | none => exact noData_errM _
  | some text => exact noData_pureM _

theorem seqOk_retrieve_file (c : Client) (path : List Char) : SeqOk (c.retrieve_file path) := by
  unfold Client.retrieve_file
  refine seqOk_bind (noCompl_get_data_connection c) (fun _ => ?_)
  refine seqOk_bind (noCompl_write_unary_command_expecting _ _ (by decide)) (fun _ => ?_)
  refine seqOk_bind noCompl_dataReadToEnd (fun buffer => ?_)
  exact seqOk_of_noData (noDataTrace_bind (noData_parse_reply_expecting _) (fun _ => noData_pureM _))

theorem seqOk_store (c : Client) (path : List Char) (data : List Nat) : SeqOk (c.store path data) := by
  unfold Client.store
  refine seqOk_bind (noCompl_get_data_connection c) (fun _ => ?_)
  refine seqOk_bind (noCompl_write_unary_command_expecting _ _ (by decide)) (fun _ => ?_)
  refine seqOk_bind (noCompl_dataWriteAll data) (fun _ => ?_)
  refine seqOk_bind noCompl_dataCloseM (fun _ => ?_)
  exact seqOk_of_noData (noDataTrace_bind (noData_parse_reply_expecting _) (fun _ => noData_pureM _))

theorem seqOk_store_unique (c : Client) (data : List Nat) : SeqOk (c.store_unique data) := by
  unfold Client.store_unique
  refine seqOk_bind (noCompl_get_data_connection c) (fun _ => ?_)
  refine seqOk_bind (noCompl_write_command_expecting _ (by decide)) (fun _ => ?_)
  refine seqOk_bind (noCompl_dataWriteAll data) (fun _ => ?_)
  refine seqOk_bind noCompl_dataCloseM (fun _ => ?_)
  exact seqOk_of_noData (noDataTrace_bind (noData_parse_reply_expecting _) (fun _ => noData_pureM _))

theorem seqOk_append (c : Client) (path : List Char) (data : List Nat) :
    SeqOk (c.append path data) := by
  unfold Client.append
  refine seqOk_bind (noCompl_get_data_connection c) (fun _ => ?_)
  refine seqOk_bind (noCompl_write_unary_command_expecting _ _ (by decide)) (fun _ => ?_)
  refine seqOk_bind (noCompl_dataWriteAll data) (fun _ => ?_)
  refine seqOk_bind noCompl_dataCloseM (fun _ => ?_)
  exact seqOk_of_noData (noDataTrace_bind (noData_parse_reply_expecting _) (fun _ => noData_pureM _))

/-- C1: for every download operation (`list`, `list_names`,
`retrieve_file`) and every upload operation (`store`, `store_unique`,
`append`), on every session, path, payload and world (i.e. in every possible
execution), the trace of I/O effects is ordered: a control-channel read
performed with the completion-reply expectation never precedes any
data-connection read, write, or release.  In particular the completion
reply is read only after the data connection has been read to exhaustion
(downloads) or fully written and released (uploads). -/
theorem transfer_completion_reply_after_data (c : Client) (path : List Char)
    (data : List Nat) (w : World) :
    TraceOrdered ((c.list path w).trace) ∧
    TraceOrdered ((c.list_names path w).trace) ∧
    TraceOrdered ((c.retrieve_file path w).trace) ∧
    TraceOrdered ((c.store path data w).trace) ∧
    TraceOrdered ((c.store_unique data w).trace) ∧
    TraceOrdered ((c.append path data w).trace) :=
  ⟨traceOrdered_of_seqOk (seqOk_list c path) w,
   traceOrdered_of_seqOk (seqOk_list_names c path) w,
   traceOrdered_of_seqOk (seqOk_retrieve_file c path) w,
   traceOrdered_of_seqOk (seqOk_store c path data) w,
   traceOrdered_of_seqOk (seqOk_store_unique c data) w,
   traceOrdered_of_seqOk (seqOk_append c path data) w⟩

/-- Witness for **C1**: in the concrete successful download world
`wTransfer`, the `retrieve_file` trace has its data-connection read at
position 5 and its completion-reply read at position 6, and the theorem
instantiates to `5 < 6` there. -/
theorem transfer_completion_reply_after_data_witness :
    (clientEx.retrieve_file (("/f").toList) wTransfer).trace[6]? =
      some (Ev.ctrlRead [StatusCodeKind.RequestActionCompleted]) ∧
    (clientEx.retrieve_file (("/f").toList) wTransfer).trace[5]? = some Ev.dataRead ∧
    5 < 6 :=
  ⟨by decide, by decide,
    (transfer_completion_reply_after_data clientEx (("/f").toList) [] wTransfer).2.2.1
      6 5 (Ev.ctrlRead [StatusCodeKind.RequestActionCompleted]) Ev.dataRead
      (by decide) (by decide) (by decide) (by decide)⟩

/-- C2: boundary behaviour of the status classification.  The claim states
`is_failure` holds iff `400 ≤ c ≤ 599` and positive (`is_valid`) iff
`200 ≤ c ≤ 399`; the code (`> 199 && < 399`, `> 399 && < 599`) excludes the
upper bounds: 399 is not positive and 599 is not a failure, while the
neighbouring codes behave as claimed. -/
theorem status_classification_boundaries :
    StatusCode.is_valid { kind := .Unknown, code := 399 } = false ∧
    StatusCode.is_valid { kind := .Unknown, code := 398 } = true ∧
    StatusCode.is_valid { kind := .Unknown, code := 200 } = true ∧
    StatusCode.is_valid { kind := .Unknown, code := 199 } = false ∧
    StatusCode.is_failure { kind := .Unknown, code := 599 } = false ∧
    StatusCode.is_failure { kind := .Unknown, code := 598 } = true ∧
    StatusCode.is_failure { kind := .Unknown, code := 400 } = true ∧
    StatusCode.is_failure { kind := .Unknown, code := 399 } = false := by
  decide

/-- C3: a PASV reply whose parenthesised tuple has only 4 (or 5) parsable
byte tokens makes `decode_passive_mode_ip` panic (the guard checks
`nums.len() < 4` but the code then indexes `nums[4]` and `nums[5]`), instead
of returning the address-decode error the claim promises; a reply missing
the delimiters does return the typed error. -/
theorem pasv_decode_panics_on_short_tuple :
    decode_passive_mode_ip (("227 Entering Passive Mode (1,2,3,4).").toList) =
      RResult.panicked ∧
    decode_passive_mode_ip (("227 Entering Passive Mode (1,2,3,4,5).").toList) =
      RResult.panicked ∧
    decode_passive_mode_ip (("227 no delimiters").toList) =
      RResult.err (cant_parse_error (("227 no delimiters").toList)) := by
  decide

/-- C10: an EPSV reply that contains `|||` but whose last `|` lies inside
that very sequence (here the message simply ends with `|||`) drives
`decode_extended_passive_mode_socket` into the slice
`response[start+3..end]` with `start+3 > end`, which panics instead of
returning an address-decode error. -/
theorem epsv_decode_panics_when_last_pipe_inside_delimiter :
    decode_extended_passive_mode_socket (some (Ipv4Addr.mk 127 0 0 1))
      (("229 Entering Extended Passive Mode (|||").toList) = RResult.panicked := by
  decide

/-- C8 (amended): in `Active` mode, `get_data_connection` unconditionally
fails by panicking (`unimplemented!()`) before performing any I/O; it does
not surface a typed error value to the caller. -/
theorem active_mode_get_data_connection_panics (wel : Option (List Char)) (w : World) :
    ((Client.mk wel ClientMode.Active).get_data_connection w).result = RResult.panicked ∧
    ((Client.mk wel ClientMode.Active).get_data_connection w).trace = [] :=
  ⟨rfl, rfl⟩

/-- C8 counterexample: the outcome in `Active` mode is a panic and is not a
typed (`Err`) value, contradicting the claim that a typed not-implemented
condition is surfaced to the caller rather than crashing. -/
theorem active_mode_outcome_is_not_typed_error :
    ((Client.mk none ClientMode.Active).get_data_connection wTransfer).result.isPanicked = true ∧
    ((Client.mk none ClientMode.Active).get_data_connection wTransfer).result.isErr = false := by
  decide

/-- C4: the acceptance decision of `parse_reply_expecting` succeeds with the
received reply exactly when the reply's kind is in the expected set or its
status code is numerically positive (`is_valid`); otherwise it fails with an
unexpected-status-code error whose message (`summarize_error`) carries the
received code, the message, and the expected-kind set. -/
theorem parse_reply_expecting_acceptance (vs : List StatusCodeKind) (r : ServerResponse) :
    (Client.reply_check vs r = RResult.ok r ↔
      (vs.contains r.status_code.kind = true ∨ r.status_code.is_valid = true)) ∧
    (vs.contains r.status_code.kind = false → r.status_code.is_valid = false →
      Client.reply_check vs r =
        RResult.err (FtpError.unexpectedStatusCode (r.summarize_error vs))) := by
  unfold Client.reply_check
  rcases h1 : vs.contains r.status_code.kind <;> rcases h2 : r.status_code.is_valid <;>
    simp [h1, h2]

/-- Witness for C4: a `200 Ok` reply expected as `Ok` is accepted; a `999`
reply of unknown kind expected as `Ok` produces the summarized
unexpected-status-code error. -/
theorem parse_reply_expecting_acceptance_witness :
    Client.reply_check [StatusCodeKind.Ok] respOk200 = RResult.ok respOk200 ∧
    Client.reply_check [StatusCodeKind.Ok] respUnknown =
      RResult.err (FtpError.unexpectedStatusCode
        (respUnknown.summarize_error [StatusCodeKind.Ok])) :=
  ⟨(parse_reply_expecting_acceptance [StatusCodeKind.Ok] respOk200).1.mpr (Or.inl (by decide)),
   (parse_reply_expecting_acceptance [StatusCodeKind.Ok] respUnknown).2 (by decide) (by decide)⟩

theorem bindM_ok {α β : Type} {m : M α} {f : α → M β} {w : World} {b : β}
    (h : (bindM m f w).result = RResult.ok b) :
    ∃ a, (m w).result = RResult.ok a ∧ (f a (m w).world).result = RResult.ok b := by
  unfold bindM at h
  cases hr : (m w).result with
  | ok a =>
      simp only [hr] at h
      exact ⟨a, rfl, h⟩
  | err e => simp [hr] at h
  | panicked => simp [hr] at h

theorem bindM_trace_head {α β : Type} (m : M α) (f : α → M β) (w : World) :
    ∃ t, (bindM m f w).trace = (m w).trace ++ t := by
  unfold bindM
  cases hr : (m w).result with
  | ok a => exact ⟨(f a (m w).world).trace, by simp [hr]⟩
  | err e => exact ⟨[], by simp [hr]⟩
  | panicked => exact ⟨[], by simp [hr]⟩

theorem trace_write_command (cmd : List Char) (w : World) :
    (Client.write_command cmd w).trace = [Ev.ctrlWrite (cmd ++ crlf)] := by
  unfold Client.write_command
  cases w.wOut <;> rfl

/-- C9: every session successfully returned by `connect_with_port`,
`connect`, `connect_tls_with_port` or `connect_tls` has its data-connection
mode initialized to `ExtendedPassive`; and for any session in that mode,
`get_data_connection` begins by sending `EPSV` on the control channel, so
transfers negotiate their data connection via EPSV until the mode is
changed. -/
theorem connect_initializes_extended_passive
    (hst u p : List Char) (port : Nat) (w : World) (c : Client) :
    ((Client.connect_with_port hst port u p w).result = RResult.ok c →
      c.mode = ClientMode.ExtendedPassive) ∧
    ((Client.connect hst u p w).result = RResult.ok c →
      c.mode = ClientMode.ExtendedPassive) ∧
    ((Client.connect_tls_with_port hst port u p w).result = RResult.ok c →
      c.mode = ClientMode.ExtendedPassive) ∧
    ((Client.connect_tls hst u p w).result = RResult.ok c →
      c.mode = ClientMode.ExtendedPassive) ∧
    (c.mode = ClientMode.ExtendedPassive →
      ∃ t, (c.get_data_connection w).trace = Ev.ctrlWrite (("EPSV").toList ++ crlf) :: t) := by
  have hplain : ∀ prt : Nat, (Client.connect_with_port hst prt u p w).result = RResult.ok c →
      c.mode = ClientMode.ExtendedPassive := by
    intro prt h
    unfold Client.connect_with_port at h
    obtain ⟨_, _, h⟩ := bindM_ok h
    obtain ⟨resp, _, h⟩ := bindM_ok h
    obtain ⟨_, _, h⟩ := bindM_ok h
    simp [pureM] at h
    simp [← h]
  have htls : ∀ prt : Nat, (Client.connect_tls_with_port hst prt u p w).result = RResult.ok c →
      c.mode = ClientMode.ExtendedPassive := by
    intro prt h
    unfold Client.connect_tls_with_port at h
    obtain ⟨_, _, h⟩ := bindM_ok h
    obtain ⟨_, _, h⟩ := bindM_ok h
    obtain ⟨_, _, h⟩ := bindM_ok h
    obtain ⟨resp, _, h⟩ := bindM_ok h
    obtain ⟨_, _, h⟩ := bindM_ok h
    simp [pureM] at h
    simp [← h]
  refine ⟨hplain port, ?_, htls port, ?_, ?_⟩
  · intro h
    unfold Client.connect at h
    exact hplain 21 h
  · intro h
    unfold Client.connect_tls at h
    exact htls 21 h
  · intro hmode
    unfold Client.get_data_connection
    rw [hmode]
    unfold Client.extended_passive_mode_connection
    obtain ⟨t1, ht1⟩ := bindM_trace_head
      (Client.write_command_expecting (("EPSV").toList) [.EnteredExtendedPassiveMode]) _ w
    rw [ht1]
    unfold Client.write_command_expecting
    obtain ⟨t2, ht2⟩ := bindM_trace_head (Client.write_command (("EPSV").toList)) _ w
    rw [ht2, trace_write_command]
    exact ⟨t2 ++ t1, by simp⟩

theorem isDigitChar_bounds {c : Char} (h : isDigitChar c = true) :
    48 ≤ c.toNat ∧ c.toNat ≤ 57 := by
  simpa [isDigitChar, Bool.and_eq_true, decide_eq_true_eq] using h

theorem isDigitChar_ne_plus {c : Char} (h : isDigitChar c = true) : ¬ c = '+' := by
  intro he
  subst he
  exact absurd h (by decide)

theorem parseNum_three_digits {d1 d2 d3 : Char}
    (h1 : isDigitChar d1 = true) (h2 : isDigitChar d2 = true) (h3 : isDigitChar d3 = true) :
    parseNum 65535 [d1, d2, d3] =
      some (100 * digitVal d1 + 10 * digitVal d2 + digitVal d3) := by
  have n1 := isDigitChar_ne_plus h1
  have b1 := isDigitChar_bounds h1
  have b2 := isDigitChar_bounds h2
  have b3 := isDigitChar_bounds h3
  have hle : 100 * (d1.toNat - 48) + 10 * (d2.toNat - 48) + (d3.toNat - 48) ≤ 65535 := by omega
  have hval : ((0 * 10 + (d1.toNat - 48)) * 10 + (d2.toNat - 48)) * 10 + (d3.toNat - 48) =
      100 * (d1.toNat - 48) + 10 * (d2.toNat - 48) + (d3.toNat - 48) := by omega
  unfold parseNum stripPlus digitsVal
  simp only [if_neg n1, digitsValAux, h1, h2, h3, if_true, digitVal, hval]
  simp [hle]

theorem parse_three_digit_line {d1 d2 d3 : Char} (rest : List Char)
    (h1 : isDigitChar d1 = true) (h2 : isDigitChar d2 = true) (h3 : isDigitChar d3 = true) :
    ServerResponse.parse (d1 :: d2 :: d3 :: rest) =
      some { message := trimChars rest,
             status_code :=
               { kind := StatusCodeKind.ofCode (100 * digitVal d1 + 10 * digitVal d2 + digitVal d3),
                 code := 100 * digitVal d1 + 10 * digitVal d2 + digitVal d3 } } := by
  have hc : 0 ≤ 3 ∧ 3 ≤ (d1 :: d2 :: d3 :: rest).length := by simp
  unfold ServerResponse.parse StatusCode.parse rustSlice
  rw [if_pos hc]
  have hslice : ((d1 :: d2 :: d3 :: rest).drop 0).take (3 - 0) = [d1, d2, d3] := by simp
  rw [hslice]
  simp [parseNum_three_digits h1 h2 h3]

/-- C7 (amended): a line of three ASCII digits, a separator and trailing
text parses to the reply whose code is the 3-digit value, whose kind is
`classify(code)` and whose message is the remainder trimmed; the
classification table maps the nineteen tabulated codes present in the
source to their listed kinds, but `257` (absent from the source table — the
crate has no `PathCreated` variant) to `Unknown` and `504` to
`SecurityMechanismNotImplemented`; every code outside the twenty source
entries maps to `Unknown`. -/
theorem reply_parse_and_classification :
    (∀ (d1 d2 d3 sep : Char) (rest : List Char),
      isDigitChar d1 = true → isDigitChar d2 = true → isDigitChar d3 = true →
      (sep = ' ' ∨ sep = '-') →
      ServerResponse.parse (d1 :: d2 :: d3 :: sep :: rest) =
        some { message := trimChars (sep :: rest),
               status_code :=
                 { kind := StatusCodeKind.ofCode (100 * digitVal d1 + 10 * digitVal d2 + digitVal d3),
                   code := 100 * digitVal d1 + 10 * digitVal d2 + digitVal d3 } }) ∧
    (StatusCodeKind.ofCode 220 = .ReadyForNewUser ∧
     StatusCodeKind.ofCode 331 = .PasswordRequired ∧
     StatusCodeKind.ofCode 230 = .UserLoggedIn ∧
     StatusCodeKind.ofCode 221 = .ClosingControlConnection ∧
     StatusCodeKind.ofCode 200 = .Ok ∧
     StatusCodeKind.ofCode 211 = .SystemStatus ∧
     StatusCodeKind.ofCode 214 = .HelpMessage ∧
     StatusCodeKind.ofCode 215 = .NameSystemType ∧
     StatusCodeKind.ofCode 226 = .RequestActionCompleted ∧
     StatusCodeKind.ofCode 250 = .RequestFileActionCompleted ∧
     StatusCodeKind.ofCode 227 = .EnteredPassiveMode ∧
     StatusCodeKind.ofCode 229 = .EnteredExtendedPassiveMode ∧
     StatusCodeKind.ofCode 125 = .TransferStarted ∧
     StatusCodeKind.ofCode 150 = .TransferAboutToStart ∧
     StatusCodeKind.ofCode 350 = .RequestActionPending ∧
     StatusCodeKind.ofCode 202 = .FeatureNotImplemented ∧
     StatusCodeKind.ofCode 500 = .CommandUnrecognized ∧
     StatusCodeKind.ofCode 550 = .RequestActionDenied ∧
     StatusCodeKind.ofCode 553 = .FileNameNotAllowed) ∧
    (StatusCodeKind.ofCode 257 = .Unknown ∧
     StatusCodeKind.ofCode 504 = .SecurityMechanismNotImplemented) ∧
    (∀ code : Nat,
      code ∉ [125, 150, 200, 202, 211, 214, 215, 220, 221, 226, 227, 229, 230, 250, 331, 350,
        500, 504, 550, 553] →
      StatusCodeKind.ofCode code = .Unknown) := by
  refine ⟨?_, by decide, by decide, ?_⟩
  · intro d1 d2 d3 sep rest h1 h2 h3 _hsep
    exact parse_three_digit_line (sep :: rest) h1 h2 h3
  · intro code h
    simp only [List.mem_cons, not_or] at h
    obtain ⟨e1, e2, e3, e4, e5, e6, e7, e8, e9, e10, e11, e12, e13, e14, e15, e16, e17, e18,
      e19, e20, -⟩ := h
    simp [StatusCodeKind.ofCode, e1, e2, e3, e4, e5, e6, e7, e8, e9, e10, e11, e12, e13, e14,
      e15, e16, e17, e18, e19, e20]

/-- C7 counterexample: `504` is not one of the twenty codes tabulated by the
claim, yet the code classifies it as `SecurityMechanismNotImplemented`, not
`Unknown`; and `257`, which the claim tabulates, classifies as `Unknown`. -/
theorem classification_table_counterexample :
    StatusCodeKind.ofCode 504 = StatusCodeKind.SecurityMechanismNotImplemented ∧
    (StatusCodeKind.ofCode 504 == StatusCodeKind.Unknown) = false ∧
    StatusCodeKind.ofCode 257 = StatusCodeKind.Unknown := by
  decide

/-- Witness for C7: the line `"220 ready"` parses to code 220, kind
`ReadyForNewUser`, message `"ready"`; the untabulated code 777 classifies as
`Unknown`. -/
theorem reply_parse_and_classification_witness :
    isDigitChar '2' = true ∧
    ServerResponse.parse (("220 ready").toList) =
      some { message := ("ready").toList,
             status_code := { kind := StatusCodeKind.ReadyForNewUser, code := 220 } } ∧
    StatusCodeKind.ofCode 777 = StatusCodeKind.Unknown := by
  refine ⟨by decide, ?_, reply_parse_and_classification.2.2.2 777 (by decide)⟩
  have h := reply_parse_and_classification.1 '2' '2' '0' ' ' (("ready").toList)
    (by decide) (by decide) (by decide) (Or.inl rfl)
  exact h.trans (by decide)

theorem firstIdx_not_mem {ch : Char} {p : List Char} (h : ch ∉ p) (s : List Char) :
    firstIdx ch (p ++ ch :: s) = some p.length := by
  induction p with
  | nil => simp [firstIdx]
  | cons a t ih =>
      have ha : ¬ a = ch := by
        intro he
        exact h (by simp [he])
      have ht : ch ∉ t := fun hm => h (List.mem_cons_of_mem a hm)
      simp only [List.cons_append, firstIdx, if_neg ha, List.length_cons]
      rw [show t.append (ch :: s) = t ++ ch :: s from rfl, ih ht]
      rfl

theorem filterMap_eq_of_map_some {α β : Type} {f : α → Option β} :
    ∀ {ts : List α} {ns : List β}, ts.map f = ns.map some → ts.filterMap f = ns := by
  intro ts
  induction ts with
  | nil =>
      intro ns h
      cases ns with
      | nil => simp
      | cons n t => simp at h
  | cons a t ih =>
      intro ns h
      cases ns with
      | nil => simp at h
      | cons n nt =>
          simp only [List.map_cons, List.cons.injEq] at h
          obtain ⟨h1, h2⟩ := h
          simp [List.filterMap_cons, h1, ih h2]

theorem drop_append_len {α : Type} (p s : List α) : (p ++ s).drop p.length = s :=
  List.drop_left p s

theorem take_append_len {α : Type} (p s : List α) : (p ++ s).take p.length = p :=
  List.take_left p s

/-- C5: for every PASV reply message of the form
`a ++ "(" ++ b ++ ")" ++ c` in which the first `(` precedes the first `)`
and the enclosed text `b` splits at commas into at least six tokens, all
parsable as unsigned bytes, `decode_passive_mode_ip` returns the IPv4
socket address built from the first four values and port `256*p1 + p2`. -/
theorem pasv_decode_correct (a b c : List Char) (ns : List Nat)
    (n0 n1 n2 n3 n4 n5 : Nat) (rest : List Nat)
    (hnpa : '(' ∉ a) (hnra : ')' ∉ a) (hnrb : ')' ∉ b)
    (hparse : (splitComma b).map (parseNum 255) = ns.map some)
    (hns : ns = n0 :: n1 :: n2 :: n3 :: n4 :: n5 :: rest) :
    decode_passive_mode_ip (a ++ '(' :: (b ++ ')' :: c)) =
      RResult.ok { ip := { o1 := n0, o2 := n1, o3 := n2, o4 := n3 }, port := 256 * n4 + n5 } := by
  subst hns
  have h1 : firstIdx '(' (a ++ '(' :: (b ++ ')' :: c)) = some a.length :=
    firstIdx_not_mem hnpa _
  have hnotin : ')' ∉ (a ++ '(' :: b) := by
    intro hm
    rcases List.mem_append.mp hm with hm | hm
    · exact hnra hm
    · rcases List.mem_cons.mp hm with hm | hm
      · cases hm
      · exact hnrb hm
  have h2 : firstIdx ')' (a ++ '(' :: (b ++ ')' :: c)) = some (a.length + 1 + b.length) := by
    have hmsg : a ++ '(' :: (b ++ ')' :: c) = (a ++ '(' :: b) ++ ')' :: c := by simp
    rw [hmsg, firstIdx_not_mem hnotin]
    simp
    omega
  have hslice : rustSlice (a.length + 1) (a.length + 1 + b.length) (a ++ '(' :: (b ++ ')' :: c)) =
      some b := by
    unfold rustSlice
    have hcond : a.length + 1 ≤ a.length + 1 + b.length ∧
        a.length + 1 + b.length ≤ (a ++ '(' :: (b ++ ')' :: c)).length := by
      simp
      omega
    rw [if_pos hcond]
    have hd : (a ++ '(' :: (b ++ ')' :: c)).drop (a.length + 1) = b ++ ')' :: c := by
      have : a ++ '(' :: (b ++ ')' :: c) = (a ++ ['(']) ++ (b ++ ')' :: c) := by simp
      rw [this, show a.length + 1 = (a ++ ['(']).length by simp]
      exact drop_append_len _ _
    rw [hd, show a.length + 1 + b.length - (a.length + 1) = b.length by omega]
    exact congrArg some (take_append_len _ _)
  unfold decode_passive_mode_ip
  simp only [h1, h2, hslice, filterMap_eq_of_map_some hparse]
  simp

/-- Witness for C5: the reply
`"227 Entering Passive Mode (127,0,0,1,19,136)."` decodes to
`127.0.0.1:5000` (since `19*256 + 136 = 5000`). -/
theorem pasv_decode_correct_witness :
    decode_passive_mode_ip (("227 Entering Passive Mode (127,0,0,1,19,136).").toList) =
      RResult.ok { ip := { o1 := 127, o2 := 0, o3 := 0, o4 := 1 }, port := 5000 } := by
  have h := pasv_decode_correct (("227 Entering Passive Mode ").toList)
      (("127,0,0,1,19,136").toList) ((".").toList) [127, 0, 0, 1, 19, 136]
      127 0 0 1 19 136 [] (by decide) (by decide) (by decide) (by decide) rfl
  exact h.trans (by decide)

theorem rlast_not_mem {ch : Char} {c : List Char} (h : ch ∉ c) : rlast ch c = none := by
  induction c with
  | nil => rfl
  | cons x t ih =>
      have hx : ¬ x = ch := by
        intro he
        exact h (by simp [he])
      have ht : ch ∉ t := fun hm => h (List.mem_cons_of_mem x hm)
      unfold rlast
      rw [ih ht, if_neg hx]

theorem rlast_last {ch : Char} {c : List Char} (h : ch ∉ c) (q : List Char) :
    rlast ch (q ++ ch :: c) = some q.length := by
  induction q with
  | nil =>
      simp only [List.nil_append]
      unfold rlast
      rw [rlast_not_mem h]
      simp
  | cons x t ih =>
      simp only [List.cons_append]
      unfold rlast
      rw [ih]
      simp

theorem findSub_pipes {a : List Char} (h : '|' ∉ a) (s : List Char) :
    findSub (("|||").toList) (a ++ '|' :: '|' :: '|' :: s) = some a.length := by
  induction a with
  | nil =>
      simp only [List.nil_append]
      unfold findSub
      rw [if_pos (by simp [matchesAt])]
      rfl
  | cons x t ih =>
      have hx : ¬ x = '|' := by
        intro he
        exact h (by simp [he])
      have ht : '|' ∉ t := fun hm => h (List.mem_cons_of_mem x hm)
      have hm : matchesAt (("|||").toList) (x :: (t ++ '|' :: '|' :: '|' :: s)) = false := by
        simp [matchesAt, hx]
      simp only [List.cons_append]
      unfold findSub
      rw [hm]
      simp only [Bool.false_eq_true, if_false, ih ht, Option.map_some, List.length_cons]
      rfl

theorem epsv_slice (a p c : List Char) :
    rustSlice (a.length + 3) (a.length + 3 + p.length)
      (a ++ '|' :: '|' :: '|' :: (p ++ '|' :: c)) = some p := by
  unfold rustSlice
  have hcond : a.length + 3 ≤ a.length + 3 + p.length ∧
      a.length + 3 + p.length ≤ (a ++ '|' :: '|' :: '|' :: (p ++ '|' :: c)).length := by
    simp
    omega
  rw [if_pos hcond]
  have hd : (a ++ '|' :: '|' :: '|' :: (p ++ '|' :: c)).drop (a.length + 3) = p ++ '|' :: c := by
    have hmsg : a ++ '|' :: '|' :: '|' :: (p ++ '|' :: c) =
        (a ++ ['|', '|', '|']) ++ (p ++ '|' :: c) := by simp
    rw [hmsg, show a.length + 3 = (a ++ ['|', '|', '|']).length by simp]
    exact drop_append_len _ _
  rw [hd, show a.length + 3 + p.length - (a.length + 3) = p.length by omega]
  exact congrArg some (take_append_len _ _)

/-- C6: for every EPSV reply of the form `a ++ "|||" ++ p ++ "|" ++ c` (the
first `|||` followed later by the final `|`), the text `p` strictly between
the delimiters is parsed as the port (`u16`, 0–65535) and paired with the
control connection's peer address — the decoder is polymorphic in the
address type, so the address cannot come from the reply text; a port that
fails to parse, or a reply missing the `|||` delimiter, yields the
address-decode error. -/
theorem epsv_decode_correct {α : Type} (peer : α) (a p c : List Char)
    (hna : '|' ∉ a) (hnc : '|' ∉ c) :
    (∀ n : Nat, parseNum 65535 p = some n →
      decode_extended_passive_mode_socket (some peer) (a ++ '|' :: '|' :: '|' :: (p ++ '|' :: c)) =
        RResult.ok (peer, n)) ∧
    (parseNum 65535 p = none →
      decode_extended_passive_mode_socket (some peer) (a ++ '|' :: '|' :: '|' :: (p ++ '|' :: c)) =
        RResult.err (cant_parse_error (a ++ '|' :: '|' :: '|' :: (p ++ '|' :: c)))) ∧
    (∀ resp : List Char, findSub (("|||").toList) resp = none →
      decode_extended_passive_mode_socket (some peer) resp =
        RResult.err (cant_parse_error resp)) := by
  have h1 : findSub (("|||").toList) (a ++ '|' :: '|' :: '|' :: (p ++ '|' :: c)) =
      some a.length := findSub_pipes hna _
  have h2 : rlast '|' (a ++ '|' :: '|' :: '|' :: (p ++ '|' :: c)) =
      some (a.length + 3 + p.length) := by
    have hmsg : a ++ '|' :: '|' :: '|' :: (p ++ '|' :: c) =
        (a ++ '|' :: '|' :: '|' :: p) ++ '|' :: c := by simp
    rw [hmsg, rlast_last hnc]
    simp
    omega
  have hs := epsv_slice a p c
  refine ⟨?_, ?_, ?_⟩
  · intro n hn
    unfold decode_extended_passive_mode_socket
    simp only [h1, h2, hs, hn]
  · intro hn
    unfold decode_extended_passive_mode_socket
    simp only [h1, h2, hs, hn]
  · intro resp h
    unfold decode_extended_passive_mode_socket
    rw [h]

/-- Witness for C6: the reply
`"229 Entering Extended Passive Mode (|||6446|)"`, with control peer
`203.0.113.5`, decodes to `203.0.113.5:6446`. -/
theorem epsv_decode_correct_witness :
    decode_extended_passive_mode_socket (some (Ipv4Addr.mk 203 0 113 5))
      (("229 Entering Extended Passive Mode (|||6446|)").toList) =
      RResult.ok (Ipv4Addr.mk 203 0 113 5, 6446) := by
  have h := (epsv_decode_correct (Ipv4Addr.mk 203 0 113 5)
      (("229 Entering Extended Passive Mode (").toList) (("6446").toList) ((")").toList)
      (by decide) (by decide)).1 6446 (by decide)
  exact h.trans (by decide)

/-- Witness for C9: over the world `wConnect`, `connect_with_port` succeeds
and returns a session whose mode is `ExtendedPassive`. -/
theorem connect_initializes_extended_passive_witness :
    (Client.connect_with_port [] 21 (("u").toList) (("p").toList) wConnect).result =
      RResult.ok { welcome_string := some (("ready").toList), mode := ClientMode.ExtendedPassive } ∧
    ({ welcome_string := some (("ready").toList), mode := ClientMode.ExtendedPassive } : Client).mode =
      ClientMode.ExtendedPassive :=
  ⟨by decide,
   (connect_initializes_extended_passive [] (("u").toList) (("p").toList) 21 wConnect
     { welcome_string := some (("ready").toList), mode := ClientMode.ExtendedPassive }).1 (by decide)⟩
